import Mathlib

/-!
Shallow embedding of the pagination-and-checkpoint engine of the
`tap-coingecko` connector (files `tap_coingecko/streams/base.py`,
`hourly.py`, `asset_profile.py`, `categories.py`), together with proofs
settling the specification claims about it.

Python calendar dates (`datetime.date` components of a `datetime`) are
modelled as year/month/day triples with Gregorian day-successor arithmetic
(`timedelta(days=1)`); millisecond epoch timestamps are modelled as `Int`;
the HTTP layer, JSON parsing and the date parser of the `pendulum` library
are external collaborators and appear as oracle parameters.
-/

namespace TapCoingecko

/-- A calendar date, mirroring the date component of a Python `datetime`
(year/month/day; Python restricts years to 1..9999 but the arithmetic
embedded here does not need that bound). -/
structure Date where
  year : Nat
  month : Nat
  day : Nat
deriving DecidableEq, Repr

/-- Gregorian leap-year rule, as used by Python's `datetime` arithmetic. -/
def isLeapYear (y : Nat) : Bool :=
  (y % 4 == 0 && y % 100 != 0) || (y % 400 == 0)

/-- Number of days in a month of a given year (Gregorian calendar). -/
def daysInMonth (y m : Nat) : Nat :=
  if m = 2 then (if isLeapYear y then 29 else 28)
  else if m = 4 ∨ m = 6 ∨ m = 9 ∨ m = 11 then 30
  else 31

/-- `d + timedelta(days=1)`: the Gregorian successor of a date. -/
def Date.nextDay (d : Date) : Date :=
  if d.day < daysInMonth d.year d.month then ⟨d.year, d.month, d.day + 1⟩
  else if d.month < 12 then ⟨d.year, d.month + 1, 1⟩
  else ⟨d.year + 1, 1, 1⟩

/-- Chronological strict order on dates: Python `datetime` comparison is
lexicographic on (year, month, day). -/
def Date.lt (a b : Date) : Bool :=
  a.year < b.year
    || (a.year == b.year
        && (a.month < b.month || (a.month == b.month && a.day < b.day)))

/-- Any date is strictly before its successor day. -/
theorem Date.lt_nextDay (d : Date) : Date.lt d d.nextDay = true := by
  unfold Date.nextDay Date.lt
  split
  · simp
  · split
    · simp
    · simp

/-- `CoingeckoDailyStream.get_next_page_token` (base.py:266-300): seed the
cursor from `previous_token` when present, else from the resolved starting
replication value; emit `cursor + 1 day` while the cursor is strictly below
the signpost, and `none` (Done) once the cursor has reached it.  The
signpost is `pendulum.yesterday(tz="UTC")`, always a concrete datetime, so
the dead `signpost is None` branch of the source is not represented. -/
def getNextPageToken (previousToken : Option Date) (resolvedStart : Date)
    (signpost : Date) : Option Date :=
  let oldToken := previousToken.getD resolvedStart
  if Date.lt oldToken signpost then some oldToken.nextDay else none

/-- The finite token sequence obtained by repeatedly asking
`getNextPageToken` for the next token, feeding each emitted token back as
the previous one (`fuel` bounds the iteration; the sequence is the prefix
reachable within `fuel` steps). -/
def emittedTokens (resolvedStart signpost : Date) :
    Nat → Option Date → List Date
  | 0, _ => []
  | fuel + 1, prev =>
    match getNextPageToken prev resolvedStart signpost with
    | none => []
    | some t => t :: emittedTokens resolvedStart signpost fuel (some t)

/-- C1: the daily page-token sequencer seeds from the resolved start when
no previous token exists, emits `current + 1 day` for every current cursor
strictly below the signpost, signals Done at or above the signpost, and on
the concrete window start 2024-01-01 / signpost 2024-01-03 emits exactly
the two tokens 2024-01-02 and 2024-01-03 before Done. -/
theorem claim1_daily_page_token_sequencer :
    (∀ start signpost : Date,
      getNextPageToken none start signpost
        = getNextPageToken (some start) start signpost)
    ∧ (∀ (cur start signpost : Date), Date.lt cur signpost = true →
        getNextPageToken (some cur) start signpost = some cur.nextDay)
    ∧ (∀ (cur start signpost : Date), Date.lt cur signpost = false →
        getNextPageToken (some cur) start signpost = none)
    ∧ emittedTokens ⟨2024, 1, 1⟩ ⟨2024, 1, 3⟩ 10 none
        = [⟨2024, 1, 2⟩, ⟨2024, 1, 3⟩]
    ∧ (emittedTokens ⟨2024, 1, 1⟩ ⟨2024, 1, 3⟩ 10 none).length = 2 := by
  refine ⟨fun start signpost => rfl, fun cur start signpost h => ?_,
    fun cur start signpost h => ?_, by decide, by decide⟩
  · simp [getNextPageToken, h]
  · simp [getNextPageToken, h]

/-- Witness for C1 at concrete dates: 2024-01-02 is strictly before the
signpost 2024-01-03 and the sequencer steps it to 2024-01-03. -/
theorem claim1_witness :
    Date.lt ⟨2024, 1, 2⟩ ⟨2024, 1, 3⟩ = true
    ∧ getNextPageToken (some ⟨2024, 1, 2⟩) ⟨2024, 1, 1⟩ ⟨2024, 1, 3⟩
        = some ⟨2024, 1, 3⟩ :=
  ⟨by decide,
    claim1_daily_page_token_sequencer.2.1 ⟨2024, 1, 2⟩ ⟨2024, 1, 1⟩
      ⟨2024, 1, 3⟩ (by decide)⟩

/-- The `replication_key_value` slot of the context state that
`get_context_state` returns for one partition (the persisted bookmark value
when one exists). -/
structure PartitionContextState where
  replication_key_value : Option String
deriving DecidableEq, Repr

/-- Failure of `get_starting_replication_key_value`: with no bookmark and
no `start_date` key in the config, the lookup `self.config["start_date"]`
(base.py:220) fails — the unresolvable-start configuration error. -/
inductive ResolveError
  | missingStartDate
deriving DecidableEq, Repr

/-- Python truthiness of an optional string (`if bookmark:`): `None` and
the empty string are falsy. -/
def truthyStr : Option String → Option String
  | some s => if s = "" then none else some s
  | none => none

/-- `CoingeckoDailyStream.get_starting_replication_key_value`
(base.py:208-224): return the parsed `replication_key_value` of the
persisted bookmark when the partition's context state holds a truthy one,
else the parsed configured `start_date`; with neither, the config lookup
fails.  `parse` stands for the external `pendulum.parse`; the function
reads state and config and performs no writes (it is pure). -/
def getStartingReplicationKeyValue (parse : String → Date)
    (currentState : Option PartitionContextState)
    (startDate : Option String) : Except ResolveError Date :=
  let bookmark := currentState.bind PartitionContextState.replication_key_value
  match truthyStr bookmark with
  | some b => Except.ok (parse b)
  | none =>
    match startDate with
    | some s => Except.ok (parse s)
    | none => Except.error ResolveError.missingStartDate

/-- C4: resolving the starting cursor returns the parsed persisted
bookmark when the state store holds one for the partition, otherwise the
parsed configured start value, and errors out when neither is resolvable;
the resolver is a pure function of the state and config (no side
effects). -/
theorem claim4_cursor_resolver (parse : String → Date)
    (st : Option PartitionContextState) (startDate : Option String) :
    (∀ b : String, b ≠ "" →
      st.bind PartitionContextState.replication_key_value = some b →
      getStartingReplicationKeyValue parse st startDate
        = Except.ok (parse b))
    ∧ (∀ s : String,
        truthyStr (st.bind PartitionContextState.replication_key_value)
          = none →
        startDate = some s →
        getStartingReplicationKeyValue parse st startDate
          = Except.ok (parse s))
    ∧ (truthyStr (st.bind PartitionContextState.replication_key_value)
          = none →
        startDate = none →
        getStartingReplicationKeyValue parse st startDate
          = Except.error ResolveError.missingStartDate) := by
  refine ⟨fun b hb hst => ?_, fun s hst hsd => ?_, fun hst hsd => ?_⟩
  · simp [getStartingReplicationKeyValue, hst, truthyStr, hb]
  · simp [getStartingReplicationKeyValue, hst, hsd]
  · simp [getStartingReplicationKeyValue, hst, hsd]

/-- Witness for C4 at a concrete state: a stored bookmark "2024-01-05"
wins over the configured "2022-03-01". -/
theorem claim4_witness :
    ((some ⟨some "2024-01-05"⟩ : Option PartitionContextState).bind
        PartitionContextState.replication_key_value = some "2024-01-05")
    ∧ getStartingReplicationKeyValue (fun _ => ⟨2024, 1, 5⟩)
        (some ⟨some "2024-01-05"⟩) (some "2022-03-01")
        = Except.ok ⟨2024, 1, 5⟩ :=
  ⟨rfl,
    (claim4_cursor_resolver (fun _ => ⟨2024, 1, 5⟩)
        (some ⟨some "2024-01-05"⟩) (some "2022-03-01")).1
      "2024-01-05" (by decide) rfl⟩

/-- The exception kinds relevant to the request pipeline: the two/three
whitelisted transient classes of the `backoff.on_exception` decorators
(`RetriableAPIError`, `requests.exceptions.ReadTimeout`,
`requests.exceptions.ConnectionError`) and representative non-transient
failures (HTTP 404 / 401 surfaced as fatal API errors, malformed JSON). -/
inductive ExcKind
  | retriableAPIError
  | readTimeout
  | connectionError
  | fatalAPIError404
  | fatalAPIError401
  | jsonDecodeError
deriving DecidableEq, Repr

/-- Retry whitelist of `CoingeckoDailyStream.request_decorator`
(base.py:135-140): `(RetriableAPIError, requests.exceptions.ReadTimeout)`.
The hourly stream inherits this decorator unchanged. -/
def dailyRetryableExc : ExcKind → Bool
  | .retriableAPIError => true
  | .readTimeout => true
  | _ => false

/-- Retry whitelist of `AssetProfileStream.request_decorator`
(asset_profile.py:72-80) and `CoinCategoriesStream.request_decorator`
(categories.py:91-100): `(RetriableAPIError, ReadTimeout,
ConnectionError)`. -/
def profileRetryableExc : ExcKind → Bool
  | .retriableAPIError => true
  | .readTimeout => true
  | .connectionError => true
  | _ => false

/-- Result of running a `backoff.on_exception`-wrapped call: how many
attempts were made, the backoff delays slept between attempts, and the
final outcome (the last error is re-raised on give-up). -/
structure BackoffOut (A : Type) where
  attemptsMade : Nat
  delays : List Nat
  result : Except ExcKind A
deriving Repr

/-- `backoff.on_exception(backoff.expo, excs, max_tries, factor)` applied
to a fallible call: attempt number `i` (0-based) is `attempt i`; a listed
exception with tries remaining sleeps `factor * 2 ^ i` and retries; an
unlisted exception, or a listed one on the final permitted try, is
re-raised immediately.  `triesLeft` is the number of attempts still
permitted (initially `max_tries`, assumed positive). -/
def backoffRun {A : Type} (whitelist : ExcKind → Bool) (factor : Nat)
    (attempt : Nat → Except ExcKind A) :
    (triesLeft : Nat) → (attemptIdx : Nat) → BackoffOut A
  | 0, _ => ⟨0, [], Except.error .retriableAPIError⟩
  | 1, i =>
    match attempt i with
    | Except.ok a => ⟨1, [], Except.ok a⟩
    | Except.error e => ⟨1, [], Except.error e⟩
  | n + 2, i =>
    match attempt i with
    | Except.ok a => ⟨1, [], Except.ok a⟩
    | Except.error e =>
      if whitelist e then
        let rest := backoffRun whitelist factor attempt (n + 1) (i + 1)
        ⟨rest.attemptsMade + 1, factor * 2 ^ i :: rest.delays, rest.result⟩
      else ⟨1, [], Except.error e⟩

/-- The daily stream's decorated request: `max_tries=8, factor=3`
(base.py:135-140). -/
def dailyDecoratedRequest {A : Type} (attempt : Nat → Except ExcKind A) :
    BackoffOut A :=
  backoffRun dailyRetryableExc 3 attempt 8 0

/-- The asset-profile stream's decorated request: `max_tries=5, factor=2`
(asset_profile.py:72-80). -/
def profileDecoratedRequest {A : Type} (attempt : Nat → Except ExcKind A) :
    BackoffOut A :=
  backoffRun profileRetryableExc 2 attempt 5 0

/-- The categories stream's decorated request: `max_tries=8, factor=3`
over the three-exception whitelist (categories.py:91-100). -/
def categoriesDecoratedRequest {A : Type} (attempt : Nat → Except ExcKind A) :
    BackoffOut A :=
  backoffRun profileRetryableExc 3 attempt 8 0

/-- A non-whitelisted exception on the first attempt propagates at once:
one attempt, no backoff sleeps. -/
theorem backoffRun_nonwhitelisted {A : Type} (wl : ExcKind → Bool)
    (factor : Nat) (attempt : Nat → Except ExcKind A) (e : ExcKind)
    (n i : Nat) (hwl : wl e = false) (h0 : attempt i = Except.error e) :
    backoffRun wl factor attempt (n + 1) i = ⟨1, [], Except.error e⟩ := by
  cases n with
  | zero => simp [backoffRun, h0]
  | succ m => simp [backoffRun, h0, hwl]

/-- A persistently failing whitelisted exception is retried until the
attempt cap: `n + 1` permitted tries make exactly `n + 1` attempts, sleep
the exponential backoff schedule `factor * 2 ^ i` between consecutive
attempts, and re-raise the last error. -/
theorem backoffRun_persistent {A : Type} (wl : ExcKind → Bool)
    (factor : Nat) (e : ExcKind) (hwl : wl e = true) :
    ∀ n i, backoffRun wl factor (fun _ => (Except.error e : Except ExcKind A))
        (n + 1) i
      = ⟨n + 1, (List.range n).map (fun k => factor * 2 ^ (i + k)),
          Except.error e⟩ := by
  intro n
  induction n with
  | zero => intro i; simp [backoffRun]
  | succ m ih =>
    intro i
    simp only [backoffRun, hwl, if_true, ih (i + 1), BackoffOut.mk.injEq,
      true_and, and_true]
    rw [List.range_succ_eq_map, List.map_cons, List.map_map]
    refine List.cons_eq_cons.mpr ⟨by simp, ?_⟩
    apply List.map_congr_left
    intro k _
    have h : i + 1 + k = i + (k + 1) := by omega
    simp only [Function.comp_apply]
    rw [h]

/-- A whitelisted exception on the first attempt followed by a success is
retried: two attempts, one backoff sleep of `factor * 2 ^ 0 = factor`. -/
theorem backoffRun_retry_then_ok {A : Type} (wl : ExcKind → Bool)
    (factor : Nat) (attempt : Nat → Except ExcKind A) (e : ExcKind)
    (a : A) (n : Nat) (hwl : wl e = true) (h0 : attempt 0 = Except.error e)
    (h1 : attempt 1 = Except.ok a) :
    backoffRun wl factor attempt (n + 2) 0
      = ⟨2, [factor], Except.ok a⟩ := by
  cases n with
  | zero => simp [backoffRun, h0, h1, hwl]
  | succ m => simp [backoffRun, h0, h1, hwl]

/-- C5 counterexample: the daily stream's page-request retry policy does
not whitelist connection failures.  A `ConnectionError` on the first
attempt propagates immediately — one attempt, no retry — even though the
very next attempt would have succeeded, contradicting the claim that the
retry policy wrapping each page request retries connection failures. -/
theorem claim5_counterexample :
    dailyDecoratedRequest
        (fun i => if i = 0 then Except.error ExcKind.connectionError
          else Except.ok ())
      = ⟨1, [], Except.error ExcKind.connectionError⟩
    ∧ dailyRetryableExc ExcKind.connectionError = false := by
  exact ⟨rfl, rfl⟩

/-- C5 (amended): every retry policy retries only its declared whitelist
with exponential backoff (fixed base factor) and a hard attempt cap, and
non-whitelisted errors (404, 401, malformed JSON) propagate immediately;
but the whitelists differ: the daily/hourly policy covers only
read-timeouts and the retriable API error class — connection failures
propagate immediately there — while the asset-profile and categories
policies additionally cover connection failures.  Caps/factors: 8 tries,
factor 3 (daily, categories); 5 tries, factor 2 (asset profile). -/
theorem claim5_retry_policy :
    (dailyRetryableExc .retriableAPIError = true
      ∧ dailyRetryableExc .readTimeout = true
      ∧ dailyRetryableExc .connectionError = false
      ∧ dailyRetryableExc .fatalAPIError404 = false
      ∧ dailyRetryableExc .fatalAPIError401 = false
      ∧ dailyRetryableExc .jsonDecodeError = false)
    ∧ (profileRetryableExc .retriableAPIError = true
      ∧ profileRetryableExc .readTimeout = true
      ∧ profileRetryableExc .connectionError = true
      ∧ profileRetryableExc .fatalAPIError404 = false
      ∧ profileRetryableExc .fatalAPIError401 = false
      ∧ profileRetryableExc .jsonDecodeError = false)
    ∧ (∀ (A : Type) (attempt : Nat → Except ExcKind A) (e : ExcKind),
        dailyRetryableExc e = false → attempt 0 = Except.error e →
        dailyDecoratedRequest attempt = ⟨1, [], Except.error e⟩)
    ∧ (∀ (A : Type) (attempt : Nat → Except ExcKind A) (e : ExcKind),
        profileRetryableExc e = false → attempt 0 = Except.error e →
        profileDecoratedRequest attempt = ⟨1, [], Except.error e⟩)
    ∧ (∀ e : ExcKind, dailyRetryableExc e = true →
        dailyDecoratedRequest (fun _ => (Except.error e : Except ExcKind Unit))
          = ⟨8, [3, 6, 12, 24, 48, 96, 192], Except.error e⟩)
    ∧ (∀ e : ExcKind, profileRetryableExc e = true →
        profileDecoratedRequest (fun _ => (Except.error e : Except ExcKind Unit))
          = ⟨5, [2, 4, 8, 16], Except.error e⟩)
    ∧ (∀ (A : Type) (attempt : Nat → Except ExcKind A) (e : ExcKind) (a : A),
        dailyRetryableExc e = true → attempt 0 = Except.error e →
        attempt 1 = Except.ok a →
        dailyDecoratedRequest attempt = ⟨2, [3], Except.ok a⟩) := by
  refine ⟨⟨rfl, rfl, rfl, rfl, rfl, rfl⟩, ⟨rfl, rfl, rfl, rfl, rfl, rfl⟩,
    ?_, ?_, ?_, ?_, ?_⟩
  · intro A attempt e hwl h0
    exact backoffRun_nonwhitelisted dailyRetryableExc 3 attempt e 7 0 hwl h0
  · intro A attempt e hwl h0
    exact backoffRun_nonwhitelisted profileRetryableExc 2 attempt e 4 0 hwl h0
  · intro e hwl
    have h := backoffRun_persistent (A := Unit) dailyRetryableExc 3 e hwl 7 0
    simpa using h
  · intro e hwl
    have h := backoffRun_persistent (A := Unit) profileRetryableExc 2 e hwl 4 0
    simpa using h
  · intro A attempt e a hwl h0 h1
    exact backoffRun_retry_then_ok dailyRetryableExc 3 attempt e a 6 hwl h0 h1

/-- Witness for C5 (amended) at concrete inputs: a 404 propagates from the
daily policy after one attempt, and a persistent rate-limit error exhausts
all 8 daily attempts with the backoff schedule 3,6,12,…,192. -/
theorem claim5_witness :
    dailyRetryableExc ExcKind.fatalAPIError404 = false
    ∧ ((fun _ => (Except.error ExcKind.fatalAPIError404 : Except ExcKind Unit)) 0
        = Except.error ExcKind.fatalAPIError404)
    ∧ dailyDecoratedRequest
        (fun _ => (Except.error ExcKind.fatalAPIError404 : Except ExcKind Unit))
      = ⟨1, [], Except.error ExcKind.fatalAPIError404⟩
    ∧ dailyRetryableExc ExcKind.retriableAPIError = true
    ∧ dailyDecoratedRequest
        (fun _ => (Except.error ExcKind.retriableAPIError : Except ExcKind Unit))
      = ⟨8, [3, 6, 12, 24, 48, 96, 192], Except.error ExcKind.retriableAPIError⟩ :=
  ⟨rfl, rfl,
    claim5_retry_policy.2.2.1 Unit _ ExcKind.fatalAPIError404 rfl rfl,
    rfl,
    claim5_retry_policy.2.2.2.2.1 ExcKind.retriableAPIError rfl⟩

/-- `ApiType.PRO.value` (utils.py): the Pro-tier base URL, also the
literal the rate-limit guard in base.py:205 compares against. -/
def proApiUrl : String := "https://pro-api.coingecko.com/api/v3"

/-- `ApiType.FREE.value` (utils.py): the free-tier base URL. -/
def freeApiUrl : String := "https://api.coingecko.com/api/v3"

/-- The declarative concurrency budget returned for the Pro tier by
`get_concurrent_request_parameters`. -/
structure ConcurrencyParams where
  concurrency : Nat
  max_rate_limit : Nat
  rate_limit_window_size : ℚ
deriving DecidableEq, Repr

/-- `CoingeckoDailyStream.get_concurrent_request_parameters`
(base.py:61-77): the Pro tier advertises `concurrency=5`,
`max_rate_limit=10`, `rate_limit_window_size=1.0`; every other tier gets
`None`. -/
def getConcurrentRequestParameters (apiUrl : String) :
    Option ConcurrencyParams :=
  if apiUrl = proApiUrl then some ⟨5, 10, 1⟩ else none

/-- Observable side effects of the daily fetch loop, in program order: one
HTTP page request per token, and the courtesy `time.sleep(wait)` of the
free tier. -/
inductive Ev
  | request (tok : Date)
  | sleepFor (secs : Nat)
deriving DecidableEq, Repr

/-- How one run of the daily fetch loop ends: normal completion (Done from
the sequencer), the `RuntimeError("Infinite pagination loop detected.")`
of base.py:199-200, an exception propagating out of the page
request/parse, or exhaustion of the modelling fuel (the Python loop has no
iteration bound of its own). -/
inductive RunRes
  | finished
  | loopError
  | failed
  | outOfFuel
deriving DecidableEq, Repr

/-- Outcome of a daily fetch-loop run: the event trace, the ordered list
of replication-cursor (bookmark) values written by
`_increment_stream_state` after each successfully parsed page, and the
terminal status. -/
structure RunOut where
  events : List Ev
  writes : List Date
  result : RunRes
deriving DecidableEq, Repr

/-- Body of the `while next_page_token:` loop of
`CoingeckoDailyStream._fetch_token_data` (base.py:183-206), generic in the
(dynamically dispatched) sequencer `next` and the page oracle `page`
(retry-wrapped request plus `parse_response`; its error is any exception
propagating from them).  Per iteration: issue the request for the current
token; on success the single parsed record carries the token as its date,
so the stream state advances to the token; compute the next token from the
previous one; raise on a repeated token; stop on Done; otherwise sleep
when the configured API URL is not the Pro URL, and continue. -/
def fetchLoopGo (next : Date → Option Date)
    (page : Date → Except ExcKind Unit) (apiUrl : String) (wait : Nat) :
    Nat → Date → RunOut
  | 0, _ => ⟨[], [], .outOfFuel⟩
  | fuel + 1, tok =>
    match page tok with
    | Except.error _ => ⟨[.request tok], [], .failed⟩
    | Except.ok _ =>
      if next tok = some tok then ⟨[.request tok], [tok], .loopError⟩
      else
        match next tok with
        | none => ⟨[.request tok], [tok], .finished⟩
        | some t2 =>
          let rest := fetchLoopGo next page apiUrl wait fuel t2
          let evs := if apiUrl = proApiUrl then [Ev.request tok]
            else [Ev.request tok, Ev.sleepFor wait]
          ⟨evs ++ rest.events, tok :: rest.writes, rest.result⟩

/-- `CoingeckoDailyStream._fetch_token_data` (base.py:163-206): ask the
sequencer for the initial token (`previous_token = None`); when it is
already Done, return without issuing any request; otherwise run the page
loop. -/
def fetchTokenData (next : Option Date → Option Date)
    (page : Date → Except ExcKind Unit) (apiUrl : String) (wait : Nat)
    (fuel : Nat) : RunOut :=
  match next none with
  | none => ⟨[], [], .finished⟩
  | some t0 => fetchLoopGo (fun p => next (some p)) page apiUrl wait fuel t0

/-- The daily stream's sequencer as used by its fetch loop: the
`get_next_page_token` of base.py with the resolved start and the signpost
fixed for the partition's sync. -/
def dailyNext (resolvedStart signpost : Date) :
    Option Date → Option Date :=
  fun prev => getNextPageToken prev resolvedStart signpost

/-- The daily fetch loop composed with the daily sequencer. -/
def dailyFetchTokenData (resolvedStart signpost : Date)
    (page : Date → Except ExcKind Unit) (apiUrl : String) (wait : Nat)
    (fuel : Nat) : RunOut :=
  fetchTokenData (dailyNext resolvedStart signpost) page apiUrl wait fuel

/-- Number of HTTP page requests in an event trace. -/
def countReq : List Ev → Nat
  | [] => 0
  | Ev.request _ :: rest => countReq rest + 1
  | Ev.sleepFor _ :: rest => countReq rest

/-- Number of rate-limit sleeps in an event trace. -/
def countSleep : List Ev → Nat
  | [] => 0
  | Ev.request _ :: rest => countSleep rest
  | Ev.sleepFor _ :: rest => countSleep rest + 1

/-- Request counting distributes over trace concatenation. -/
theorem countReq_append (l1 l2 : List Ev) :
    countReq (l1 ++ l2) = countReq l1 + countReq l2 := by
  induction l1 with
  | nil => simp [countReq]
  | cons e rest ih =>
    cases e <;> simp [countReq, ih] <;> omega

/-- Sleep counting distributes over trace concatenation. -/
theorem countSleep_append (l1 l2 : List Ev) :
    countSleep (l1 ++ l2) = countSleep l1 + countSleep l2 := by
  induction l1 with
  | nil => simp [countSleep]
  | cons e rest ih =>
    cases e <;> simp [countSleep, ih] <;> omega

/-- Bookmark writes of the daily page loop: whenever the sequencer only
ever steps strictly forward, the written cursor values are strictly
increasing, and the first write (when any) is the loop's entry token. -/
theorem fetchLoopGo_writes (next : Date → Option Date)
    (page : Date → Except ExcKind Unit) (apiUrl : String) (wait : Nat)
    (hnext : ∀ t t', next t = some t' → Date.lt t t' = true) :
    ∀ fuel tok,
      List.Chain' (fun a b => Date.lt a b = true)
          (fetchLoopGo next page apiUrl wait fuel tok).writes
      ∧ ∀ b, (fetchLoopGo next page apiUrl wait fuel tok).writes.head?
            = some b → b = tok := by
  intro fuel
  induction fuel with
  | zero => intro tok; simp [fetchLoopGo]
  | succ n ih =>
    intro tok
    simp only [fetchLoopGo]
    cases hp : page tok with
    | error e => simp
    | ok _ =>
      by_cases hrep : next tok = some tok
      · simp [hrep]
      · rw [if_neg hrep]
        cases hn : next tok with
        | none => simp
        | some t2 =>
          obtain ⟨ihchain, ihhead⟩ := ih t2
          constructor
          · refine List.chain'_cons'.mpr ⟨?_, ihchain⟩
            intro b hb
            rw [ihhead b hb]
            exact hnext tok t2 hn
          · intro b hb
            simp only [List.head?_cons, Option.some.injEq] at hb
            exact hb.symm

/-- Request/write accounting of the daily page loop: a failed page issues
its request but writes no bookmark, while every other ending has exactly
one bookmark write per issued request. -/
theorem fetchLoopGo_counts (next : Date → Option Date)
    (page : Date → Except ExcKind Unit) (apiUrl : String) (wait : Nat) :
    ∀ fuel tok,
      ((fetchLoopGo next page apiUrl wait fuel tok).result = RunRes.failed →
        (fetchLoopGo next page apiUrl wait fuel tok).writes.length + 1
          = countReq (fetchLoopGo next page apiUrl wait fuel tok).events)
      ∧ ((fetchLoopGo next page apiUrl wait fuel tok).result ≠ RunRes.failed →
        (fetchLoopGo next page apiUrl wait fuel tok).writes.length
          = countReq (fetchLoopGo next page apiUrl wait fuel tok).events) := by
  intro fuel
  induction fuel with
  | zero => intro tok; simp [fetchLoopGo, countReq]
  | succ n ih =>
    intro tok
    simp only [fetchLoopGo]
    cases hp : page tok with
    | error e => simp [countReq]
    | ok _ =>
      by_cases hrep : next tok = some tok
      · simp [hrep, countReq]
      · rw [if_neg hrep]
        cases hn : next tok with
        | none => simp [countReq]
        | some t2 =>
          obtain ⟨ihf, ihok⟩ := ih t2
          by_cases hpro : apiUrl = proApiUrl
          · rw [if_pos hpro]
            constructor
            · intro hres
              have h1 := ihf hres
              simp [countReq, List.length_cons]
              omega
            · intro hres
              have h1 := ihok hres
              simp [countReq, List.length_cons]
              omega
          · rw [if_neg hpro]
            constructor
            · intro hres
              have h1 := ihf hres
              simp [countReq, List.length_cons]
              omega
            · intro hres
              have h1 := ihok hres
              simp [countReq, List.length_cons]
              omega

/-- Whether an event is an HTTP page request. -/
def isReq : Ev → Bool
  | Ev.request _ => true
  | Ev.sleepFor _ => false

/-- Under the Pro tier the daily page loop never sleeps. -/
theorem fetchLoopGo_pro_no_sleep (next : Date → Option Date)
    (page : Date → Except ExcKind Unit) (wait : Nat) :
    ∀ fuel tok,
      countSleep (fetchLoopGo next page proApiUrl wait fuel tok).events
        = 0 := by
  intro fuel
  induction fuel with
  | zero => intro tok; simp [fetchLoopGo, countSleep]
  | succ n ih =>
    intro tok
    simp only [fetchLoopGo]
    cases hp : page tok with
    | error e => simp [countSleep]
    | ok _ =>
      by_cases hrep : next tok = some tok
      · simp [hrep, countSleep]
      · rw [if_neg hrep]
        cases hn : next tok with
        | none => simp [countSleep]
        | some t2 => simp [countSleep, ih t2]

/-- Off the Pro tier, every completed (non-fuel-truncated) run of the
daily page loop sleeps exactly once between consecutive requests: one
fewer sleep than requests. -/
theorem fetchLoopGo_free_sleeps (next : Date → Option Date)
    (page : Date → Except ExcKind Unit) (apiUrl : String) (wait : Nat)
    (hfree : apiUrl ≠ proApiUrl) :
    ∀ fuel tok,
      (fetchLoopGo next page apiUrl wait fuel tok).result ≠ RunRes.outOfFuel →
      countSleep (fetchLoopGo next page apiUrl wait fuel tok).events + 1
        = countReq (fetchLoopGo next page apiUrl wait fuel tok).events := by
  intro fuel
  induction fuel with
  | zero => intro tok h; exact absurd rfl h
  | succ n ih =>
    intro tok
    simp only [fetchLoopGo]
    cases hp : page tok with
    | error e => intro _; simp [countSleep, countReq]
    | ok _ =>
      by_cases hrep : next tok = some tok
      · intro _; simp [hrep, countSleep, countReq]
      · rw [if_neg hrep]
        cases hn : next tok with
        | none => intro _; simp [countSleep, countReq]
        | some t2 =>
          rw [if_neg hfree]
          intro hres
          have h1 := ih t2 hres
          simp only [List.cons_append, List.nil_append] at *
          simp [countSleep, countReq]
          omega

/-- Every sleep the daily page loop performs lasts exactly the configured
`wait_time_between_requests`. -/
theorem fetchLoopGo_sleep_wait (next : Date → Option Date)
    (page : Date → Except ExcKind Unit) (apiUrl : String) (wait : Nat) :
    ∀ fuel tok s,
      Ev.sleepFor s ∈ (fetchLoopGo next page apiUrl wait fuel tok).events →
      s = wait := by
  intro fuel
  induction fuel with
  | zero => intro tok s h; simp [fetchLoopGo] at h
  | succ n ih =>
    intro tok s
    simp only [fetchLoopGo]
    cases hp : page tok with
    | error e => intro h; simp at h
    | ok _ =>
      by_cases hrep : next tok = some tok
      · simp [hrep]
      · rw [if_neg hrep]
        cases hn : next tok with
        | none => intro h; simp at h
        | some t2 =>
          by_cases hpro : apiUrl = proApiUrl
          · rw [if_pos hpro]
            intro h
            simp only [List.cons_append, List.nil_append, List.mem_cons] at h
            rcases h with h | h
            · exact absurd h (by simp)
            · exact ih t2 s h
          · rw [if_neg hpro]
            intro h
            simp only [List.cons_append, List.nil_append, List.mem_cons] at h
            rcases h with h | h | h
            · exact absurd h (by simp)
            · exact Ev.sleepFor.inj h
            · exact ih t2 s h

/-- Off the Pro tier, no two page requests of the daily loop are ever
adjacent in the trace: a sleep separates consecutive requests. -/
theorem fetchLoopGo_free_no_adjacent_requests (next : Date → Option Date)
    (page : Date → Except ExcKind Unit) (apiUrl : String) (wait : Nat)
    (hfree : apiUrl ≠ proApiUrl) :
    ∀ fuel tok,
      List.Chain' (fun a b => isReq a = false ∨ isReq b = false)
        (fetchLoopGo next page apiUrl wait fuel tok).events := by
  intro fuel
  induction fuel with
  | zero => intro tok; simp [fetchLoopGo]
  | succ n ih =>
    intro tok
    simp only [fetchLoopGo]
    cases hp : page tok with
    | error e => simp
    | ok _ =>
      by_cases hrep : next tok = some tok
      · simp [hrep]
      · rw [if_neg hrep]
        cases hn : next tok with
        | none => simp
        | some t2 =>
          rw [if_neg hfree]
          refine List.chain'_append.mpr ⟨?_, ih t2, ?_⟩
          · simp [isReq]
          · intro x hx y hy
            simp only [List.getLast?_cons_cons, List.getLast?_singleton,
              Option.mem_def, Option.some.injEq] at hx
            subst hx
            left
            rfl

/-- C8: the rate-limit policy is a switch on the configured API tier.  Off
the Pro tier the daily fetch loop sleeps the configured
`wait_time_between_requests` exactly once between every pair of
consecutive page requests of a partition (one fewer sleep than requests,
every sleep of the configured length, never two adjacent requests) and
advertises no concurrency budget; on the Pro tier it never sleeps and
`get_concurrent_request_parameters` advertises concurrency 5, 10 requests
per window, window size 1.0. -/
theorem claim8_rate_limit_switch :
    getConcurrentRequestParameters proApiUrl = some ⟨5, 10, 1⟩
    ∧ getConcurrentRequestParameters freeApiUrl = none
    ∧ (∀ next page wait fuel,
        countSleep (fetchTokenData next page proApiUrl wait fuel).events = 0)
    ∧ (∀ next page apiUrl wait fuel, apiUrl ≠ proApiUrl →
        (fetchTokenData next page apiUrl wait fuel).result ≠ RunRes.outOfFuel →
        countReq (fetchTokenData next page apiUrl wait fuel).events = 0
          ∨ countSleep (fetchTokenData next page apiUrl wait fuel).events + 1
              = countReq (fetchTokenData next page apiUrl wait fuel).events)
    ∧ (∀ next page apiUrl wait fuel s,
        Ev.sleepFor s ∈ (fetchTokenData next page apiUrl wait fuel).events →
        s = wait)
    ∧ (∀ next page apiUrl wait fuel, apiUrl ≠ proApiUrl →
        List.Chain' (fun a b => isReq a = false ∨ isReq b = false)
          (fetchTokenData next page apiUrl wait fuel).events) := by
  refine ⟨rfl, by decide, ?_, ?_, ?_, ?_⟩
  · intro next page wait fuel
    cases h : next none with
    | none => simp [fetchTokenData, h, countSleep]
    | some t0 =>
      simp only [fetchTokenData, h]
      exact fetchLoopGo_pro_no_sleep (fun p => next (some p)) page wait fuel t0
  · intro next page apiUrl wait fuel hfree
    cases h : next none with
    | none => intro _; left; simp [fetchTokenData, h, countReq]
    | some t0 =>
      simp only [fetchTokenData, h]
      intro hres
      right
      exact fetchLoopGo_free_sleeps (fun p => next (some p)) page apiUrl wait
        hfree fuel t0 hres
  · intro next page apiUrl wait fuel s
    cases h : next none with
    | none => intro hmem; simp [fetchTokenData, h] at hmem
    | some t0 =>
      simp only [fetchTokenData, h]
      exact fetchLoopGo_sleep_wait (fun p => next (some p)) page apiUrl wait
        fuel t0 s
  · intro next page apiUrl wait fuel hfree
    cases h : next none with
    | none => simp [fetchTokenData, h]
    | some t0 =>
      simp only [fetchTokenData, h]
      exact fetchLoopGo_free_no_adjacent_requests (fun p => next (some p))
        page apiUrl wait hfree fuel t0

/-- Witness for C8 at a concrete free-tier run (start 2024-01-01,
signpost 2024-01-03, wait 2): the claim's free-tier clause applies and the
trace indeed interleaves one 2-second sleep between its two requests. -/
theorem claim8_witness :
    freeApiUrl ≠ proApiUrl
    ∧ (fetchTokenData (dailyNext ⟨2024, 1, 1⟩ ⟨2024, 1, 3⟩)
          (fun _ => Except.ok ()) freeApiUrl 2 10).result ≠ RunRes.outOfFuel
    ∧ (countReq (fetchTokenData (dailyNext ⟨2024, 1, 1⟩ ⟨2024, 1, 3⟩)
          (fun _ => Except.ok ()) freeApiUrl 2 10).events = 0
        ∨ countSleep (fetchTokenData (dailyNext ⟨2024, 1, 1⟩ ⟨2024, 1, 3⟩)
            (fun _ => Except.ok ()) freeApiUrl 2 10).events + 1
          = countReq (fetchTokenData (dailyNext ⟨2024, 1, 1⟩ ⟨2024, 1, 3⟩)
              (fun _ => Except.ok ()) freeApiUrl 2 10).events)
    ∧ (fetchTokenData (dailyNext ⟨2024, 1, 1⟩ ⟨2024, 1, 3⟩)
          (fun _ => Except.ok ()) freeApiUrl 2 10).events
        = [Ev.request ⟨2024, 1, 2⟩, Ev.sleepFor 2, Ev.request ⟨2024, 1, 3⟩] :=
  ⟨by decide, by decide,
    claim8_rate_limit_switch.2.2.2.1 (dailyNext ⟨2024, 1, 1⟩ ⟨2024, 1, 3⟩)
      (fun _ => Except.ok ()) freeApiUrl 2 10 (by decide) (by decide),
    by decide⟩

/-- The daily sequencer only ever steps strictly forward in time. -/
theorem dailyNext_strict (resolvedStart signpost : Date) :
    ∀ t t', dailyNext resolvedStart signpost (some t) = some t' →
      Date.lt t t' = true := by
  intro t t' h
  simp only [dailyNext, getNextPageToken, Option.getD_some] at h
  split at h
  · cases h
    exact Date.lt_nextDay t
  · exact absurd h (by simp)

/-- The initial daily token, when one exists, lies strictly after the
resolved start. -/
theorem dailyNext_initial (resolvedStart signpost : Date) :
    ∀ t', dailyNext resolvedStart signpost none = some t' →
      Date.lt resolvedStart t' = true := by
  intro t' h
  simp only [dailyNext, getNextPageToken, Option.getD_none] at h
  split at h
  · cases h
    exact Date.lt_nextDay resolvedStart
  · exact absurd h (by simp)

/-- One persisted bookmark entry
(`{replication_key, replication_key_value}`). -/
structure BookmarkEntry where
  replication_key : String
  replication_key_value : String
deriving DecidableEq, Repr

/-- Two-digit zero padding, as in `strftime("%m"/"%d")`. -/
def pad2 (n : Nat) : String :=
  if n < 10 then "0" ++ toString n else toString n

/-- Four-digit zero padding, as in `strftime("%Y")`. -/
def pad4 (n : Nat) : String :=
  if n < 10 then "000" ++ toString n
  else if n < 100 then "00" ++ toString n
  else if n < 1000 then "0" ++ toString n
  else toString n

/-- `record_date.strftime("%Y-%m-%d")` (base.py:253). -/
def formatDate (d : Date) : String :=
  pad4 d.year ++ "-" ++ pad2 d.month ++ "-" ++ pad2 d.day

/-- `CoingeckoDailyStream.get_updated_state` (base.py:231-264): store the
latest record's formatted date as the `coingecko_token`-namespace bookmark
of the record's token partition, leaving every other partition untouched.
The per-partition bookmark mapping is modelled as a function from
partition key to optional entry. -/
def getUpdatedState (bookmarks : String → Option BookmarkEntry)
    (recToken : String) (recDate : Date) :
    String → Option BookmarkEntry :=
  fun t => if t = recToken then some ⟨"date", formatDate recDate⟩
    else bookmarks t

/-- C7: per partition, bookmarks advance only after a successfully parsed
page and never on a failed page, and the persisted values are monotone.
Clause 1: prepending the resolved start (which is the stored bookmark when
resuming, by C4's resolver), the sequence of written cursor values is
strictly increasing — so the persisted bookmark never decreases across the
life of the state store.  Clauses 2 and 3: a run that fails has exactly
one request (the failed page) without a bookmark write, and every other
run writes exactly once per request.  Clauses 4 and 5: `get_updated_state`
writes the record's date under the record's own partition key and leaves
every other partition's bookmark unchanged. -/
theorem claim7_bookmark_discipline :
    (∀ start signpost page apiUrl wait fuel,
      List.Chain' (fun a b => Date.lt a b = true)
        (start ::
          (dailyFetchTokenData start signpost page apiUrl wait fuel).writes))
    ∧ (∀ start signpost page apiUrl wait fuel,
        (dailyFetchTokenData start signpost page apiUrl wait fuel).result
            = RunRes.failed →
        (dailyFetchTokenData start signpost page apiUrl wait fuel).writes.length
            + 1
          = countReq
              (dailyFetchTokenData start signpost page apiUrl wait fuel).events)
    ∧ (∀ start signpost page apiUrl wait fuel,
        (dailyFetchTokenData start signpost page apiUrl wait fuel).result
            ≠ RunRes.failed →
        (dailyFetchTokenData start signpost page apiUrl wait fuel).writes.length
          = countReq
              (dailyFetchTokenData start signpost page apiUrl wait fuel).events)
    ∧ (∀ bookmarks tok d,
        getUpdatedState bookmarks tok d tok = some ⟨"date", formatDate d⟩)
    ∧ (∀ bookmarks tok d t, t ≠ tok →
        getUpdatedState bookmarks tok d t = bookmarks t) := by
  refine ⟨?_, ?_, ?_, ?_, ?_⟩
  · intro start signpost page apiUrl wait fuel
    unfold dailyFetchTokenData fetchTokenData
    cases h0 : dailyNext start signpost none with
    | none => simp
    | some t0 =>
      simp only []
      obtain ⟨hchain, hhead⟩ :=
        fetchLoopGo_writes (fun p => dailyNext start signpost (some p)) page
          apiUrl wait (fun t t' => dailyNext_strict start signpost t t')
          fuel t0
      refine List.chain'_cons'.mpr ⟨?_, hchain⟩
      intro b hb
      rw [hhead b hb]
      exact dailyNext_initial start signpost t0 h0
  · intro start signpost page apiUrl wait fuel
    unfold dailyFetchTokenData fetchTokenData
    cases h0 : dailyNext start signpost none with
    | none => intro hres; exact absurd hres (by simp)
    | some t0 =>
      exact (fetchLoopGo_counts (fun p => dailyNext start signpost (some p))
        page apiUrl wait fuel t0).1
  · intro start signpost page apiUrl wait fuel
    unfold dailyFetchTokenData fetchTokenData
    cases h0 : dailyNext start signpost none with
    | none => intro _; simp [countReq]
    | some t0 =>
      exact (fetchLoopGo_counts (fun p => dailyNext start signpost (some p))
        page apiUrl wait fuel t0).2
  · intro bookmarks tok d
    simp [getUpdatedState]
  · intro bookmarks tok d t ht
    simp [getUpdatedState, ht]

/-- Witness for C7 at a concrete run (start 2024-01-01, signpost
2024-01-05) whose second page fails: the failed page issues its request
but writes no bookmark, and `get_updated_state` leaves a different
partition's bookmark untouched. -/
theorem claim7_witness :
    (dailyFetchTokenData ⟨2024, 1, 1⟩ ⟨2024, 1, 5⟩
        (fun d => if d = ⟨2024, 1, 3⟩ then Except.error ExcKind.readTimeout
          else Except.ok ()) freeApiUrl 2 10).result = RunRes.failed
    ∧ (dailyFetchTokenData ⟨2024, 1, 1⟩ ⟨2024, 1, 5⟩
        (fun d => if d = ⟨2024, 1, 3⟩ then Except.error ExcKind.readTimeout
          else Except.ok ()) freeApiUrl 2 10).writes.length + 1
      = countReq (dailyFetchTokenData ⟨2024, 1, 1⟩ ⟨2024, 1, 5⟩
          (fun d => if d = ⟨2024, 1, 3⟩ then Except.error ExcKind.readTimeout
            else Except.ok ()) freeApiUrl 2 10).events
    ∧ ("solana" ≠ "ethereum"
        ∧ getUpdatedState (fun _ => none) "ethereum" ⟨2024, 1, 2⟩ "solana"
          = none) :=
  ⟨by decide,
    claim7_bookmark_discipline.2.1 ⟨2024, 1, 1⟩ ⟨2024, 1, 5⟩
      (fun d => if d = ⟨2024, 1, 3⟩ then Except.error ExcKind.readTimeout
        else Except.ok ()) freeApiUrl 2 10 (by decide),
    by decide,
    claim7_bookmark_discipline.2.2.2.2 (fun _ => none) "ethereum"
      ⟨2024, 1, 2⟩ "solana" (by decide)⟩

/-- `days_param == "max" or (days_param.isdigit() and int(days_param) > 30)`
(hourly.py:89-90): whether the configured `days` option requests a
backfill. -/
def isBackfillParam (s : String) : Bool :=
  s == "max"
    || (s.length > 0 && s.toList.all Char.isDigit
        && (s.toNat?.getD 0) > 30)

/-- Milliseconds in the 30-day backfill chunk (hourly.py:98). -/
def chunkSizeMs : Int := 30 * 24 * 60 * 60 * 1000

/-- `CoingeckoHourlyStream.get_next_page_token` (hourly.py:61-113), with
tokens as millisecond epoch integers (the source's datetime/ms round trip
`datetime.fromtimestamp(ms / 1000)` / `int(dt.timestamp() * 1000)` is the
identity on the ms value).  On the first call (`response is None`) the
current token — previous token or resolved start — is returned
unconditionally; afterwards: Done unless a backfill is configured and the
token is still below the signpost, else step by a 30-day chunk capped at
the signpost, returning Done instead of ever repeating a token. -/
def hourlyGetNextPageToken (resolvedStart signpost : Int)
    (daysParam : String) (responseReceived : Bool)
    (previousToken : Option Int) : Option Int :=
  let oldToken := previousToken.getD resolvedStart
  if responseReceived = false then some oldToken
  else if isBackfillParam daysParam = false ∨ signpost ≤ oldToken then none
  else
    let nextTokenMs := oldToken + chunkSizeMs
    let nextTokenMs := if signpost < nextTokenMs then signpost else nextTokenMs
    if nextTokenMs = oldToken then none else some nextTokenMs

/-- How one run of the hourly fetch loop ends: the sequencer signalled
Done; the loop-guard `break` on a repeated token (an error is logged but
nothing is raised — the generator completes normally); an exception
propagated from the page request/parse; or the `max_iterations` safety cap
stopped the loop with a pending token. -/
inductive HRes
  | finished
  | loopBreak
  | failed
  | capStopped
deriving DecidableEq, Repr

/-- Outcome of an hourly fetch-loop run: iterations each issue exactly one
page request, so `requests` is also the iteration count. -/
structure HOut where
  requests : Nat
  sleeps : Nat
  result : HRes
deriving DecidableEq, Repr

/-- Body of the bounded `while next_page_token and iteration_count <
max_iterations:` loop of `CoingeckoHourlyStream._fetch_token_data`
(hourly.py:269-305), generic in the sequencer and page oracle.  Per
iteration: one request plus parse (an exception propagates), then the next
token; a repeated token logs an error and `break`s; Done ends the loop;
otherwise the free tier sleeps and the loop continues while iterations
remain. -/
def hourlyFetchGo (next : Int → Option Int)
    (page : Int → Except ExcKind Unit) (apiUrl : String) (wait : Nat) :
    Nat → Int → HOut
  | 0, _ => ⟨0, 0, .capStopped⟩
  | remaining + 1, tok =>
    match page tok with
    | Except.error _ => ⟨1, 0, .failed⟩
    | Except.ok _ =>
      if next tok = some tok then ⟨1, 0, .loopBreak⟩
      else
        match next tok with
        | none => ⟨1, 0, .finished⟩
        | some t2 =>
          let rest := hourlyFetchGo next page apiUrl wait remaining t2
          ⟨rest.requests + 1,
            rest.sleeps + (if apiUrl = proApiUrl then 0 else 1),
            rest.result⟩

/-- `max_iterations = 100` (hourly.py:267). -/
def hourlyMaxIterations : Nat := 100

/-- `CoingeckoHourlyStream._fetch_token_data` (hourly.py:251-308): obtain
the initial token (first sequencer call, `response=None`); when it is
`None` return without any request, else run the capped loop. -/
def hourlyFetchTokenData (next : Bool → Option Int → Option Int)
    (page : Int → Except ExcKind Unit) (apiUrl : String) (wait : Nat) :
    HOut :=
  match next false none with
  | none => ⟨0, 0, .finished⟩
  | some t0 =>
    hourlyFetchGo (fun p => next true (some p)) page apiUrl wait
      hourlyMaxIterations t0

/-- The warning `Reached maximum iterations (100) - stopping`
(hourly.py:307-308) fires exactly when the loop used up the iteration
budget. -/
def hourlyCapWarning (out : HOut) : Bool :=
  hourlyMaxIterations ≤ out.requests

/-- The hourly loop issues at most `remaining` page requests. -/
theorem hourlyFetchGo_requests_le (next : Int → Option Int)
    (page : Int → Except ExcKind Unit) (apiUrl : String) (wait : Nat) :
    ∀ remaining tok,
      (hourlyFetchGo next page apiUrl wait remaining tok).requests
        ≤ remaining := by
  intro remaining
  induction remaining with
  | zero => intro tok; simp [hourlyFetchGo]
  | succ n ih =>
    intro tok
    simp only [hourlyFetchGo]
    cases hp : page tok with
    | error e => simp
    | ok _ =>
      by_cases hrep : next tok = some tok
      · simp [hrep]
      · rw [if_neg hrep]
        cases hn : next tok with
        | none => simp
        | some t2 =>
          have := ih t2
          simp
          omega

/-- A cap-stopped hourly loop used its entire iteration budget. -/
theorem hourlyFetchGo_capStopped_exhausts (next : Int → Option Int)
    (page : Int → Except ExcKind Unit) (apiUrl : String) (wait : Nat) :
    ∀ remaining tok,
      (hourlyFetchGo next page apiUrl wait remaining tok).result
          = HRes.capStopped →
      (hourlyFetchGo next page apiUrl wait remaining tok).requests
        = remaining := by
  intro remaining
  induction remaining with
  | zero => intro tok _; simp [hourlyFetchGo]
  | succ n ih =>
    intro tok
    simp only [hourlyFetchGo]
    cases hp : page tok with
    | error e => intro h; exact absurd h (by simp)
    | ok _ =>
      by_cases hrep : next tok = some tok
      · intro h; exact absurd h (by simp [hrep])
      · rw [if_neg hrep]
        cases hn : next tok with
        | none => intro h; exact absurd h (by simp)
        | some t2 =>
          intro h
          have hres : (hourlyFetchGo next page apiUrl wait n t2).result
              = HRes.capStopped := by simpa using h
          have := ih t2 hres
          simp [this]

/-- C10: the hourly per-partition fetch loop is bounded by
`max_iterations = 100`: whatever the sequencer and page oracle do — in
particular however far the resolved start lies below the signpost — a run
issues at most 100 page requests; when the cap stops the loop, the whole
budget was used (so the `max_iterations`-reached warning fires) and the
outcome is the warning stop, not an exception.  The loop always
terminates: `hourlyFetchGo` recurses on the strictly decreasing iteration
budget, so `hourlyFetchTokenData` is a total function. -/
theorem claim10_hourly_iteration_cap
    (next : Bool → Option Int → Option Int)
    (page : Int → Except ExcKind Unit) (apiUrl : String) (wait : Nat) :
    (hourlyFetchTokenData next page apiUrl wait).requests
        ≤ hourlyMaxIterations
    ∧ ((hourlyFetchTokenData next page apiUrl wait).result
          = HRes.capStopped →
        hourlyCapWarning (hourlyFetchTokenData next page apiUrl wait) = true)
    ∧ ((hourlyFetchTokenData next page apiUrl wait).result ≠ HRes.failed
        ∨ (hourlyFetchTokenData next page apiUrl wait).result
          ≠ HRes.capStopped) := by
  refine ⟨?_, ?_, ?_⟩
  · unfold hourlyFetchTokenData
    cases h0 : next false none with
    | none => simp
    | some t0 =>
      exact hourlyFetchGo_requests_le (fun p => next true (some p)) page
        apiUrl wait hourlyMaxIterations t0
  · unfold hourlyFetchTokenData
    cases h0 : next false none with
    | none => intro h; exact absurd h (by simp)
    | some t0 =>
      intro h
      have := hourlyFetchGo_capStopped_exhausts (fun p => next true (some p))
        page apiUrl wait hourlyMaxIterations t0 h
      simp [hourlyCapWarning, this]
  · by_cases h : (hourlyFetchTokenData next page apiUrl wait).result
        = HRes.failed
    · right
      simp [h]
    · left
      exact h

/-- Witness for C10: a run whose sequencer always steps forward exhausts
the full budget of 100 requests, stops via the cap with the warning
fired, and is not reported as a failure. -/
theorem claim10_witness :
    (hourlyFetchTokenData (fun _ p => some ((p.getD 0) + 1))
        (fun _ => Except.ok ()) proApiUrl 0).requests ≤ hourlyMaxIterations
    ∧ ((hourlyFetchTokenData (fun _ p => some ((p.getD 0) + 1))
          (fun _ => Except.ok ()) proApiUrl 0).result = HRes.capStopped
        ∧ hourlyCapWarning (hourlyFetchTokenData (fun _ p => some ((p.getD 0) + 1))
            (fun _ => Except.ok ()) proApiUrl 0) = true) :=
  ⟨(claim10_hourly_iteration_cap (fun _ p => some ((p.getD 0) + 1))
      (fun _ => Except.ok ()) proApiUrl 0).1,
    by decide,
    (claim10_hourly_iteration_cap (fun _ p => some ((p.getD 0) + 1))
      (fun _ => Except.ok ()) proApiUrl 0).2.1 (by decide)⟩

/-- C2 counterexample: the hourly variant does not raise on a repeated
token.  Fed a sequencer that hands back the very token it was given, the
hourly loop ends with the silent `break` (`loopBreak`), a normal generator
completion indistinguishable from Done to the caller — not the fatal
pagination-loop error the claim requires of every stream variant (the
daily loop, by contrast, ends the same run in `loopError`). -/
theorem claim2_counterexample :
    (hourlyFetchGo (fun t => some t) (fun _ => Except.ok ()) proApiUrl 0
        hourlyMaxIterations 0).result = HRes.loopBreak
    ∧ HRes.loopBreak ≠ HRes.failed
    ∧ (fetchLoopGo (fun _ => some ⟨2024, 1, 2⟩) (fun _ => Except.ok ())
        proApiUrl 0 10 ⟨2024, 1, 2⟩).result = RunRes.loopError := by
  refine ⟨by decide, by decide, by decide⟩

/-- C2 (amended): when the token computed after a page equals the
immediately prior token, the daily stream's fetch loop raises the fatal
`RuntimeError("Infinite pagination loop detected.")`, while the hourly
stream's fetch loop only logs an error and `break`s — it stops silently,
completing like a normal Done (and its own sequencer returns Done instead
of ever repeating a token, so the hourly guard branch is a silent stop by
design). -/
theorem claim2_loop_guard (apiUrl : String) (wait fuel : Nat) :
    (∀ (next : Date → Option Date) (page : Date → Except ExcKind Unit)
        (tok : Date),
      page tok = Except.ok () → next tok = some tok →
      (fetchLoopGo next page apiUrl wait (fuel + 1) tok).result
        = RunRes.loopError)
    ∧ (∀ (next : Int → Option Int) (page : Int → Except ExcKind Unit)
        (tok : Int),
      page tok = Except.ok () → next tok = some tok →
      (hourlyFetchGo next page apiUrl wait (fuel + 1) tok).result
        = HRes.loopBreak
        ∧ (hourlyFetchGo next page apiUrl wait (fuel + 1) tok).result
          ≠ HRes.failed) := by
  constructor
  · intro next page tok hp hrep
    simp [fetchLoopGo, hp, hrep]
  · intro next page tok hp hrep
    constructor
    · simp [hourlyFetchGo, hp, hrep]
    · simp [hourlyFetchGo, hp, hrep]

/-- Witness for C2 (amended) at a concrete repeating sequencer. -/
theorem claim2_witness :
    ((fun _ => (Except.ok () : Except ExcKind Unit)) (⟨2024, 1, 2⟩ : Date)
        = Except.ok ())
    ∧ (fetchLoopGo (fun _ => some ⟨2024, 1, 2⟩)
        (fun _ => (Except.ok () : Except ExcKind Unit)) freeApiUrl 5 10
        ⟨2024, 1, 2⟩).result = RunRes.loopError :=
  ⟨rfl,
    (claim2_loop_guard freeApiUrl 5 9).1 (fun _ => some ⟨2024, 1, 2⟩)
      (fun _ => Except.ok ()) ⟨2024, 1, 2⟩ rfl rfl⟩

/-- C3 counterexample: the hourly variant still issues a request when the
resolved start has already reached the signpost.  With
`resolved_start = signpost = 1000` and a backfill configuration, the first
sequencer call (`response=None`) returns the start token unconditionally
(hourly.py:75-77), so the partition's sync makes one page request instead
of the zero the claim requires of every stream variant. -/
theorem claim3_counterexample :
    hourlyGetNextPageToken 1000 1000 "max" false none = some 1000
    ∧ (hourlyFetchTokenData (hourlyGetNextPageToken 1000 1000 "max")
        (fun _ => Except.ok ()) proApiUrl 0).requests = 1 := by
  refine ⟨by decide, by decide⟩

/-- C3 (amended): for the daily stream, a resolved start at or above the
signpost makes the sequencer signal Done on its first call and the
partition's sync issues zero requests, writes zero bookmarks and finishes
without error; the hourly stream's first sequencer call instead returns
the start token unconditionally, so its partition sync always issues at
least one request. -/
theorem claim3_empty_window (page : Date → Except ExcKind Unit)
    (apiUrl : String) (wait fuel : Nat) :
    (∀ start signpost : Date, Date.lt start signpost = false →
      getNextPageToken none start signpost = none
        ∧ dailyFetchTokenData start signpost page apiUrl wait fuel
          = ⟨[], [], RunRes.finished⟩)
    ∧ (∀ (resolvedStart signpost : Int) (daysParam : String)
        (hpage : Int → Except ExcKind Unit),
      hourlyGetNextPageToken resolvedStart signpost daysParam false none
          = some resolvedStart
        ∧ 1 ≤ (hourlyFetchTokenData
            (hourlyGetNextPageToken resolvedStart signpost daysParam)
            hpage apiUrl wait).requests) := by
  constructor
  · intro start signpost h
    have hseq : getNextPageToken none start signpost = none := by
      simp [getNextPageToken, h]
    refine ⟨hseq, ?_⟩
    unfold dailyFetchTokenData fetchTokenData
    have hd : dailyNext start signpost none = none := hseq
    rw [hd]
  · intro resolvedStart signpost daysParam hpage
    have hseq : hourlyGetNextPageToken resolvedStart signpost daysParam
        false none = some resolvedStart := by
      simp [hourlyGetNextPageToken]
    refine ⟨hseq, ?_⟩
    unfold hourlyFetchTokenData
    rw [hseq]
    show 1 ≤ (hourlyFetchGo _ hpage apiUrl wait hourlyMaxIterations
      resolvedStart).requests
    have hcap : hourlyMaxIterations = 99 + 1 := rfl
    rw [hcap]
    generalize 99 = r
    simp only [hourlyFetchGo]
    cases hp : hpage resolvedStart with
    | error e => simp
    | ok _ =>
      by_cases hrep : hourlyGetNextPageToken resolvedStart signpost daysParam
          true (some resolvedStart) = some resolvedStart
      · simp [hrep]
      · rw [if_neg hrep]
        cases hn : hourlyGetNextPageToken resolvedStart signpost daysParam
            true (some resolvedStart) with
        | none => simp
        | some t2 => simp

/-- Witness for C3 (amended) at concrete inputs: daily start 2024-01-05,
signpost 2024-01-03 (start past the signpost) gives the empty run. -/
theorem claim3_witness :
    Date.lt ⟨2024, 1, 5⟩ ⟨2024, 1, 3⟩ = false
    ∧ getNextPageToken none ⟨2024, 1, 5⟩ ⟨2024, 1, 3⟩ = none
    ∧ dailyFetchTokenData ⟨2024, 1, 5⟩ ⟨2024, 1, 3⟩
        (fun _ => Except.ok ()) freeApiUrl 5 10
      = ⟨[], [], RunRes.finished⟩ :=
  ⟨by decide,
    ((claim3_empty_window (fun _ => Except.ok ()) freeApiUrl 5 10).1
      ⟨2024, 1, 5⟩ ⟨2024, 1, 3⟩ (by decide)).1,
    ((claim3_empty_window (fun _ => Except.ok ()) freeApiUrl 5 10).1
      ⟨2024, 1, 5⟩ ⟨2024, 1, 3⟩ (by decide)).2⟩

/-- `CoingeckoDailyStream.request_records` (base.py:142-161): iterate the
configured tokens in order and force each partition's
`_fetch_token_data` generator to a list.  There is no per-token exception
handler, so any exception escaping a partition's fetch propagates out of
`request_records` itself; the result is the records emitted before the
failure together with the propagated error, if any. -/
def dailyRequestRecords {R : Type}
    (fetch : String → Except ExcKind (List R)) :
    List String → List R × Option ExcKind
  | [] => ([], none)
  | t :: ts =>
    match fetch t with
    | Except.error e => ([], some e)
    | Except.ok rs =>
      let rest := dailyRequestRecords fetch ts
      (rs ++ rest.1, rest.2)

/-- `CoinCategoriesStream.request_records` (categories.py:152-230): the
same per-token iteration, but each token's work sits inside handlers for
`RetriableAPIError`, `FatalAPIError`, `requests.exceptions.HTTPError` and
a final catch-all `except Exception`, every one of which logs and
continues with the next token — no exception escapes the loop. -/
def categoriesRequestRecords {R : Type}
    (fetch : String → Except ExcKind (List R)) : List String → List R
  | [] => []
  | t :: ts =>
    (match fetch t with
      | Except.error _ => []
      | Except.ok rs => rs) ++ categoriesRequestRecords fetch ts

/-- Outcome of one asset-profile token's decorated request followed by
`response.raise_for_status()`: a parsed record, or an `HTTPError`
carrying the response status. -/
inductive ProfileFetch (R : Type)
  | ok (r : R)
  | httpError (status : Nat)

/-- `AssetProfileStream.request_records` (asset_profile.py:82-118): skip
tokens whose bookmark shows a snapshot already taken today; request the
rest; an `HTTPError` with status 404 logs a warning and skips the token;
any other `HTTPError` status re-raises as `FatalAPIError`, which escapes
the generator and aborts the remaining tokens. -/
def assetProfileRequestRecords {R : Type}
    (alreadySyncedToday : String → Bool) (fetch : String → ProfileFetch R) :
    List String → List R × Option Nat
  | [] => ([], none)
  | t :: ts =>
    if alreadySyncedToday t then
      assetProfileRequestRecords alreadySyncedToday fetch ts
    else
      match fetch t with
      | ProfileFetch.ok r =>
        let rest := assetProfileRequestRecords alreadySyncedToday fetch ts
        (r :: rest.1, rest.2)
      | ProfileFetch.httpError s =>
        if s = 404 then assetProfileRequestRecords alreadySyncedToday fetch ts
        else ([], some s)

/-- C6 counterexample: the daily stream does not isolate partition
failures.  With partition "A" failing (here: retry exhaustion surfacing
the last retriable error) and partition "B" perfectly healthy, the daily
`request_records` run aborts at "A" and emits nothing at all — "B"'s
records are never emitted and its bookmark cannot advance, contradicting
the claim for this stream variant. -/
theorem claim6_counterexample :
    dailyRequestRecords
        (fun t => if t = "A" then Except.error ExcKind.retriableAPIError
          else Except.ok [1])
        ["A", "B"]
      = ([], some ExcKind.retriableAPIError)
    ∧ (fun t => if t = "A" then Except.error ExcKind.retriableAPIError
        else Except.ok [1]) "B" = Except.ok [1] := by
  refine ⟨by simp [dailyRequestRecords], by simp⟩

/-- C6 (amended): partition isolation holds for the categories stream,
whose per-token handlers swallow every partition-fatal error and continue,
so each healthy partition's records are emitted no matter what happens to
the others; the daily/hourly streams' `request_records` has no such
handler — the first partition-fatal error propagates and aborts all
remaining partitions of that stream's run. -/
theorem claim6_partition_isolation :
    (∀ (R : Type) (fetch : String → Except ExcKind (List R)) (e : ExcKind)
        (t : String) (ts : List String),
      fetch t = Except.error e →
      dailyRequestRecords fetch (t :: ts) = ([], some e))
    ∧ (∀ (R : Type) (fetch : String → Except ExcKind (List R))
        (ts : List String) (t : String) (rs : List R),
      t ∈ ts → fetch t = Except.ok rs →
      ∀ r ∈ rs, r ∈ categoriesRequestRecords fetch ts) := by
  constructor
  · intro R fetch e t ts h
    simp [dailyRequestRecords, h]
  · intro R fetch ts
    induction ts with
    | nil => intro t rs h; simp at h
    | cons a as ih =>
      intro t rs hmem hok r hr
      simp only [categoriesRequestRecords, List.mem_append]
      rcases List.mem_cons.mp hmem with heq | htail
      · subst heq
        left
        rw [hok]
        exact hr
      · right
        exact ih t rs htail hok r hr

/-- Witness for C6 (amended): partition "B"'s record 7 survives partition
"A"'s failure under the categories loop, while the daily loop aborts. -/
theorem claim6_witness :
    ((fun t => if t = "A" then Except.error ExcKind.fatalAPIError401
        else Except.ok [7]) "A" = Except.error ExcKind.fatalAPIError401)
    ∧ dailyRequestRecords
        (fun t => if t = "A" then Except.error ExcKind.fatalAPIError401
          else Except.ok [7]) ["A", "B"]
      = ([], some ExcKind.fatalAPIError401)
    ∧ (7 : Nat) ∈ categoriesRequestRecords
        (fun t => if t = "A" then Except.error ExcKind.fatalAPIError401
          else Except.ok [7]) ["A", "B"] :=
  ⟨by simp,
    claim6_partition_isolation.1 Nat
      (fun t => if t = "A" then Except.error ExcKind.fatalAPIError401
        else Except.ok [7]) ExcKind.fatalAPIError401 "A" ["B"] (by simp),
    claim6_partition_isolation.2 Nat
      (fun t => if t = "A" then Except.error ExcKind.fatalAPIError401
        else Except.ok [7]) ["A", "B"] "B" [7] (by simp) (by simp) 7
      (by simp)⟩

/-- C9 counterexample: the daily stream does not soft-skip a 404.  A page
request for partition "A" surfacing HTTP 404 as a fatal API error
propagates straight out of the daily `request_records` — the run for this
stream aborts, partition "B" is never synced, and nothing is logged-and-
continued, contradicting the claim for this stream variant. -/
theorem claim9_counterexample :
    dailyRequestRecords
        (fun t => if t = "A" then Except.error ExcKind.fatalAPIError404
          else Except.ok [2])
        ["A", "B"]
      = ([], some ExcKind.fatalAPIError404) := by
  simp [dailyRequestRecords]

/-- C9 (amended): the asset-profile stream soft-skips an entity 404 (zero
records for that token, the remaining tokens still sync, no error
escapes), and escalates any other HTTP error; the categories stream's
catch-all likewise skips the failing token and continues; the daily and
hourly streams have no 404 handling at all, so there the error propagates
and aborts the stream's remaining partitions. -/
theorem claim9_entity_not_found :
    (∀ (R : Type) (synced : String → Bool) (fetch : String → ProfileFetch R)
        (t : String) (ts : List String),
      synced t = false → fetch t = ProfileFetch.httpError 404 →
      assetProfileRequestRecords synced fetch (t :: ts)
        = assetProfileRequestRecords synced fetch ts)
    ∧ (∀ (R : Type) (synced : String → Bool) (fetch : String → ProfileFetch R)
        (t : String) (ts : List String) (s : Nat),
      synced t = false → fetch t = ProfileFetch.httpError s → s ≠ 404 →
      assetProfileRequestRecords synced fetch (t :: ts) = ([], some s))
    ∧ (∀ (R : Type) (fetch : String → Except ExcKind (List R))
        (t : String) (ts : List String),
      fetch t = Except.error ExcKind.fatalAPIError404 →
      categoriesRequestRecords fetch (t :: ts)
        = categoriesRequestRecords fetch ts)
    ∧ (∀ (R : Type) (fetch : String → Except ExcKind (List R))
        (t : String) (ts : List String),
      fetch t = Except.error ExcKind.fatalAPIError404 →
      dailyRequestRecords fetch (t :: ts)
        = ([], some ExcKind.fatalAPIError404)) := by
  refine ⟨?_, ?_, ?_, ?_⟩
  · intro R synced fetch t ts hs hf
    simp [assetProfileRequestRecords, hs, hf]
  · intro R synced fetch t ts s hs hf hne
    simp [assetProfileRequestRecords, hs, hf, hne]
  · intro R fetch t ts h
    simp [categoriesRequestRecords, h]
  · intro R fetch t ts h
    simp [dailyRequestRecords, h]

/-- Witness for C9 (amended): token "gone" 404s under the asset-profile
loop and token "bitcoin" still yields its record; a non-404 status 401
escalates. -/
theorem claim9_witness :
    ((fun _ : String => false) "gone" = false)
    ∧ assetProfileRequestRecords (fun _ => false)
        (fun t => if t = "gone" then ProfileFetch.httpError 404
          else ProfileFetch.ok 3) ["gone", "bitcoin"]
      = assetProfileRequestRecords (fun _ => false)
        (fun t => if t = "gone" then ProfileFetch.httpError 404
          else ProfileFetch.ok 3) ["bitcoin"]
    ∧ assetProfileRequestRecords (fun _ => false)
        (fun t => if t = "gone" then ProfileFetch.httpError 404
          else ProfileFetch.ok 3) ["gone", "bitcoin"]
      = ([3], none)
    ∧ assetProfileRequestRecords (fun _ => false)
        (fun _ : String => ProfileFetch.httpError (R := Nat) 401) ["x", "y"]
      = ([], some 401) :=
  ⟨rfl,
    claim9_entity_not_found.1 Nat (fun _ => false)
      (fun t => if t = "gone" then ProfileFetch.httpError 404
        else ProfileFetch.ok 3) "gone" ["bitcoin"] rfl (by simp),
    by simp [assetProfileRequestRecords],
    claim9_entity_not_found.2.1 Nat (fun _ => false)
      (fun _ => ProfileFetch.httpError 401) "x" ["y"] 401 rfl rfl (by decide)⟩

end TapCoingecko
